import Mathlib

/- Verification of the Fern analysis core (src/fern/analysis.py) against its
   specification.

   Embedding conventions:
   * IEEE-754 doubles are modelled as rationals — every finite double is a
     rational; NaN gets an explicit constructor where the code inspects it.
   * External numeric routines (the parselmouth pitch backend, librosa.lpc,
     np.roots, np.arctan2, np.std, np.hanning) are inputs of the embedding:
     they appear as oracle data or function parameters and are never
     reimplemented.  np.std stays abstract because a double square root is
     irrational; every claim about it concerns only which list it is applied
     to.  librosa.lpc and np.roots are fused into one oracle that takes a
     windowed frame and returns either the root list of the LPC polynomial or
     `none` for a raised exception.
   * Python dicts are association lists of string keys and tagged values, in
     insertion order. -/

namespace Fern

/-- A float coming back from the pitch backend: NaN, or a finite value. -/
inductive PVal where
  | nan : PVal
  | val (q : ℚ) : PVal
deriving DecidableEq

/-- A Python value stored in an analysis result dict. -/
inductive Val where
  | num (q : ℚ) : Val
  | boolean (b : Bool) : Val
  | str (s : String) : Val
deriving DecidableEq

/-- A Python dict with string keys, in insertion order. -/
abbrev Dict := List (String × Val)

/-- First binding of a key, `d[k]` when present. -/
def dlookup (d : Dict) (k : String) : Option Val :=
  (d.find? (fun p => p.1 == k)).map (fun p => p.2)

/-- Python `d.get(k, dflt)`. -/
def dget (d : Dict) (k : String) (dflt : Val) : Val :=
  (dlookup d k).getD dflt

/-- Python `k in d`. -/
def hasKey (d : Dict) (k : String) : Bool :=
  (dlookup d k).isSome

/-- numpy mean. -/
def npMean (l : List ℚ) : ℚ := l.sum / (l.length : ℚ)

/-- numpy median: sort ascending; middle element, or the average of the two
middle elements for an even length. -/
def npMedian (l : List ℚ) : ℚ :=
  if l.length % 2 = 1 then (List.insertionSort (· ≤ ·) l).getD (l.length / 2) 0
  else ((List.insertionSort (· ≤ ·) l).getD (l.length / 2 - 1) 0 +
        (List.insertionSort (· ≤ ·) l).getD (l.length / 2) 0) / 2

/-- numpy min of a nonempty array (0 as an unused placeholder for `[]`). -/
def npMin : List ℚ → ℚ
  | [] => 0
  | x :: xs => xs.foldl min x

/-- numpy max of a nonempty array (0 as an unused placeholder for `[]`). -/
def npMax : List ℚ → ℚ
  | [] => 0
  | x :: xs => xs.foldl max x

/-- The external numeric routines the module calls, kept abstract. -/
structure NumpyEnv where
  np_std : List ℚ → ℚ
  np_hanning : ℕ → List ℚ
  np_arctan2 : ℚ → ℚ → ℚ

/-- analysis.py line 31: entries equal to 0 are replaced by NaN in place. -/
def replaceUnvoiced (pitch_values : List PVal) : List PVal :=
  pitch_values.map (fun v => if v = PVal.val 0 then PVal.nan else v)

/-- analysis.py line 34: keep the non-NaN entries. -/
def validPitches (pitch_values : List PVal) : List ℚ :=
  (replaceUnvoiced pitch_values).filterMap
    (fun v => match v with | PVal.nan => none | PVal.val q => some q)

/-- The all-zero pitch dict with the exception message, analysis.py lines
58-68. -/
def pitchErrorDict (e : String) : Dict :=
  [("median_pitch", Val.num 0), ("mean_pitch", Val.num 0),
   ("min_pitch", Val.num 0), ("max_pitch", Val.num 0),
   ("std_pitch", Val.num 0), ("voiced_frames", Val.num 0),
   ("total_frames", Val.num 0), ("voicing_rate", Val.num 0),
   ("error", Val.str e)]

/-- extract_pitch_from_audio, analysis.py lines 12-68.  The parselmouth calls
are external; their outcome is the `backend` argument — either the per-frame
frequency array or the message of a raised exception. -/
def extract_pitch_from_audio (env : NumpyEnv)
    (backend : Except String (List PVal)) : Dict :=
  match backend with
  | Except.error e => pitchErrorDict e
  | Except.ok pitch_values =>
    [("median_pitch",
      Val.num (if 0 < (validPitches pitch_values).length
               then npMedian (validPitches pitch_values) else 0)),
     ("mean_pitch",
      Val.num (if 0 < (validPitches pitch_values).length
               then npMean (validPitches pitch_values) else 0)),
     ("min_pitch",
      Val.num (if 0 < (validPitches pitch_values).length
               then npMin (validPitches pitch_values) else 0)),
     ("max_pitch",
      Val.num (if 0 < (validPitches pitch_values).length
               then npMax (validPitches pitch_values) else 0)),
     ("std_pitch",
      Val.num (if 0 < (validPitches pitch_values).length
               then env.np_std (validPitches pitch_values) else 0)),
     ("voiced_frames", Val.num ((validPitches pitch_values).length : ℚ)),
     ("total_frames", Val.num ((replaceUnvoiced pitch_values).length : ℚ)),
     ("voicing_rate",
      Val.num (if 0 < (replaceUnvoiced pitch_values).length
               then ((validPitches pitch_values).length : ℚ) /
                    ((replaceUnvoiced pitch_values).length : ℚ)
               else 0))]

/-- analysis.py line 95. -/
def frame_length : ℕ := 2048

/-- analysis.py line 96. -/
def hop_length : ℕ := 512

/-- analysis.py line 99: Python floor division on ints is `Int.fdiv`. -/
def n_frames (N : ℕ) : ℤ :=
  ((N : ℤ) - (frame_length : ℤ)).fdiv (hop_length : ℤ) + 1

/-- The double 2*np.pi (the exact rational value of the IEEE-754 double
nearest 2π). -/
def two_pi : ℚ := 884279719003555 / 140737488355328

/-- The librosa side of the resonance pipeline.  `lpc_roots` is
librosa.lpc composed with np.roots on one windowed frame; `none` models a
raised exception (degenerate frame).  `available` is whether
`import librosa` succeeds.  `fault` models an unexpected exception raised
inside the frame loop but outside the per-frame try (lines 118-119). -/
structure LibrosaBackend where
  available : Bool
  lpc_roots : List ℚ → Option (List (ℚ × ℚ))
  fault : Option String

/-- Lines 131-141: keep roots with nonnegative imaginary part, convert each
to a frequency by `angle * sample_rate / (2π)` with angle = atan2(im, re),
drop non-positive frequencies, sort ascending. -/
def rootFrequencies (env : NumpyEnv) (roots : List (ℚ × ℚ)) (sr : ℚ) :
    List ℚ :=
  List.insertionSort (· ≤ ·)
    (((roots.filter (fun r => decide (0 ≤ r.2))).map
        (fun r => env.np_arctan2 r.2 r.1 * sr / two_pi)).filter
      (fun f => decide (0 < f)))

/-- The three per-band candidate sequences being accumulated. -/
abbrev Lists3 := List ℚ × List ℚ × List ℚ

/-- Lines 143-154: positional assignment of the sorted positive frequencies
to the F1/F2/F3 candidate sequences, with the reuse policy for short lists. -/
def mapFrame (fs : List ℚ) (acc : Lists3) : Lists3 :=
  if 3 ≤ fs.length then
    (acc.1 ++ [fs.getD 0 0], acc.2.1 ++ [fs.getD 1 0], acc.2.2 ++ [fs.getD 2 0])
  else if 2 ≤ fs.length then
    (acc.1 ++ [fs.getD 0 0], acc.2.1 ++ [fs.getD 1 0], acc.2.2 ++ [fs.getD 1 0])
  else if 1 ≤ fs.length then
    (acc.1 ++ [fs.getD 0 0], acc.2.1 ++ [fs.getD 0 0], acc.2.2 ++ [fs.getD 0 0])
  else acc

/-- Lines 110-119: the i-th frame of the buffer, Hann-windowed. -/
def windowedFrame (env : NumpyEnv) (audio : List ℚ) (i : ℕ) : List ℚ :=
  List.zipWith (· * ·) ((audio.drop (i * hop_length)).take frame_length)
    (env.np_hanning frame_length)

/-- Lines 121-138 for one frame: LPC fit and root solving (oracle), then the
root-to-frequency conversion; `none` when the per-frame try raised. -/
def frameFreqs (env : NumpyEnv) (L : LibrosaBackend) (audio : List ℚ)
    (sr : ℚ) (i : ℕ) : Option (List ℚ) :=
  (L.lpc_roots (windowedFrame env audio i)).map
    (fun roots => rootFrequencies env roots sr)

/-- Lines 109-158: the frame loop.  `fuel` is the number of remaining loop
iterations (`range(n_frames)`); the first test is the `end > len` break; a
frame whose per-frame try raised is skipped. -/
def resLoop (env : NumpyEnv) (L : LibrosaBackend) (audio : List ℚ) (sr : ℚ) :
    ℕ → ℕ → Lists3 → Lists3
  | _, 0, acc => acc
  | i, fuel + 1, acc =>
    if audio.length < i * hop_length + frame_length then acc
    else
      resLoop env L audio sr (i + 1) fuel
        (match frameFreqs env L audio sr i with
         | none => acc
         | some fs => mapFrame fs acc)

/-- The indices of the frames the loop actually processes (same break test as
`resLoop`; independent of the librosa backend). -/
def processedIdxs (N : ℕ) : ℕ → ℕ → List ℕ
  | _, 0 => []
  | i, fuel + 1 =>
    if N < i * hop_length + frame_length then []
    else i :: processedIdxs N (i + 1) fuel

/-- What one frame adds to the three candidate sequences: nothing when its
per-frame try raised, otherwise the positional assignment. -/
def frameContrib (env : NumpyEnv) (L : LibrosaBackend) (audio : List ℚ)
    (sr : ℚ) (i : ℕ) : Lists3 :=
  match frameFreqs env L audio sr i with
  | none => ([], [], [])
  | some fs => mapFrame fs ([], [], [])

/-- Componentwise append of candidate-sequence triples. -/
def append3 (x y : Lists3) : Lists3 :=
  (x.1 ++ y.1, x.2.1 ++ y.2.1, x.2.2 ++ y.2.2)

/-- Concatenation of a list of contributions. -/
def concat3 (l : List Lists3) : Lists3 :=
  l.foldr append3 ([], [], [])

/-- Lines 161-182: plausibility filter and per-band statistics. -/
def summarize (env : NumpyEnv)
    (f1_values f2_values f3_values : List ℚ) : Dict :=
  [("f1_mean",
    Val.num (if 0 < (f1_values.filter (fun x => decide (200 ≤ x ∧ x ≤ 1200))).length
             then npMean (f1_values.filter (fun x => decide (200 ≤ x ∧ x ≤ 1200)))
             else 0)),
   ("f2_mean",
    Val.num (if 0 < (f2_values.filter (fun x => decide (700 ≤ x ∧ x ≤ 2800))).length
             then npMean (f2_values.filter (fun x => decide (700 ≤ x ∧ x ≤ 2800)))
             else 0)),
   ("f3_mean",
    Val.num (if 0 < (f3_values.filter (fun x => decide (1500 ≤ x ∧ x ≤ 3800))).length
             then npMean (f3_values.filter (fun x => decide (1500 ≤ x ∧ x ≤ 3800)))
             else 0)),
   ("f1_std",
    Val.num (if 1 < (f1_values.filter (fun x => decide (200 ≤ x ∧ x ≤ 1200))).length
             then env.np_std (f1_values.filter (fun x => decide (200 ≤ x ∧ x ≤ 1200)))
             else 0)),
   ("f2_std",
    Val.num (if 1 < (f2_values.filter (fun x => decide (700 ≤ x ∧ x ≤ 2800))).length
             then env.np_std (f2_values.filter (fun x => decide (700 ≤ x ∧ x ≤ 2800)))
             else 0)),
   ("f3_std",
    Val.num (if 1 < (f3_values.filter (fun x => decide (1500 ≤ x ∧ x ≤ 3800))).length
             then env.np_std (f3_values.filter (fun x => decide (1500 ≤ x ∧ x ≤ 3800)))
             else 0)),
   ("formant_placeholder", Val.boolean false),
   ("formant_frames_analyzed", Val.num (f1_values.length : ℚ)),
   ("formant_valid_frames",
    Val.num ((f1_values.filter (fun x => decide (200 ≤ x ∧ x ≤ 1200))).length : ℚ))]

/-- The empty resonance result, analysis.py lines 203-214 (note: it has no
formant_valid_frames key). -/
def _empty_resonance_result : Dict :=
  [("f1_mean", Val.num 0), ("f2_mean", Val.num 0), ("f3_mean", Val.num 0),
   ("f1_std", Val.num 0), ("f2_std", Val.num 0), ("f3_std", Val.num 0),
   ("formant_placeholder", Val.boolean false),
   ("formant_frames_analyzed", Val.num 0)]

/-- The dict returned when the resonance pipeline raises unexpectedly,
analysis.py lines 190-200 (no formant frame counts). -/
def resonanceErrorDict (e : String) : Dict :=
  [("f1_mean", Val.num 0), ("f2_mean", Val.num 0), ("f3_mean", Val.num 0),
   ("f1_std", Val.num 0), ("f2_std", Val.num 0), ("f3_std", Val.num 0),
   ("formant_placeholder", Val.boolean false),
   ("error", Val.str e)]

/-- extract_resonance_from_audio, analysis.py lines 71-200. -/
def extract_resonance_from_audio (env : NumpyEnv) (L : LibrosaBackend)
    (audio : List ℚ) (sr : ℚ) : Dict :=
  if L.available then
    if n_frames audio.length < 1 then _empty_resonance_result
    else
      match L.fault with
      | some e => resonanceErrorDict e
      | none =>
        if 0 < (resLoop env L audio sr 0 (n_frames audio.length).toNat
                  ([], [], [])).1.length then
          summarize env
            (resLoop env L audio sr 0 (n_frames audio.length).toNat
              ([], [], [])).1
            (resLoop env L audio sr 0 (n_frames audio.length).toNat
              ([], [], [])).2.1
            (resLoop env L audio sr 0 (n_frames audio.length).toNat
              ([], [], [])).2.2
        else _empty_resonance_result
  else _empty_resonance_result

/-- `result['pitch_error'] = pitch_result['error']` guarded by
`'error' in pitch_result`, as the dict entries it appends. -/
def errorExtra (k : String) (d : Dict) : Dict :=
  match dlookup d "error" with
  | some v => [(k, v)]
  | none => []

/-- The merged record of extract_full_analysis before the error entries,
analysis.py lines 231-254. -/
def fullBase (env : NumpyEnv)
    (pitchBackend : Except String (List PVal)) (L : LibrosaBackend)
    (audio : List ℚ) (sr : ℚ) : Dict :=
  [("median_pitch",
    dget (extract_pitch_from_audio env pitchBackend) ("median_pitch") (Val.num 0)),
   ("mean_pitch",
    dget (extract_pitch_from_audio env pitchBackend) ("mean_pitch") (Val.num 0)),
   ("min_pitch",
    dget (extract_pitch_from_audio env pitchBackend) ("min_pitch") (Val.num 0)),
   ("max_pitch",
    dget (extract_pitch_from_audio env pitchBackend) ("max_pitch") (Val.num 0)),
   ("std_pitch",
    dget (extract_pitch_from_audio env pitchBackend) ("std_pitch") (Val.num 0)),
   ("voiced_frames",
    dget (extract_pitch_from_audio env pitchBackend) ("voiced_frames") (Val.num 0)),
   ("total_frames",
    dget (extract_pitch_from_audio env pitchBackend) ("total_frames") (Val.num 0)),
   ("voicing_rate",
    dget (extract_pitch_from_audio env pitchBackend) ("voicing_rate") (Val.num 0)),
   ("f1_mean",
    dget (extract_resonance_from_audio env L audio sr) ("f1_mean") (Val.num 0)),
   ("f2_mean",
    dget (extract_resonance_from_audio env L audio sr) ("f2_mean") (Val.num 0)),
   ("f3_mean",
    dget (extract_resonance_from_audio env L audio sr) ("f3_mean") (Val.num 0)),
   ("f1_std",
    dget (extract_resonance_from_audio env L audio sr) ("f1_std") (Val.num 0)),
   ("f2_std",
    dget (extract_resonance_from_audio env L audio sr) ("f2_std") (Val.num 0)),
   ("f3_std",
    dget (extract_resonance_from_audio env L audio sr) ("f3_std") (Val.num 0)),
   ("formant_placeholder",
    dget (extract_resonance_from_audio env L audio sr) ("formant_placeholder")
      (Val.boolean true)),
   ("sample_rate", Val.num sr),
   ("duration_seconds",
    Val.num (if 0 < audio.length then (audio.length : ℚ) / sr else 0))]

/-- extract_full_analysis, analysis.py lines 217-262: the merged record plus
the conditional pitch_error / resonance_error entries. -/
def extract_full_analysis (env : NumpyEnv)
    (pitchBackend : Except String (List PVal)) (L : LibrosaBackend)
    (audio : List ℚ) (sr : ℚ) : Dict :=
  fullBase env pitchBackend L audio sr ++
  errorExtra ("pitch_error") (extract_pitch_from_audio env pitchBackend) ++
  errorExtra ("resonance_error") (extract_resonance_from_audio env L audio sr)

/-- check_pitch_in_target, analysis.py lines 265-282. -/
def check_pitch_in_target (pitch target_min target_max : ℚ) : Bool × ℚ :=
  if pitch ≤ 0 then (false, 0)
  else
    (decide (target_min ≤ pitch ∧ pitch ≤ target_max),
     (pitch - (target_min + target_max) / 2) / ((target_min + target_max) / 2) * 100)

/-- The spec's notion of the voiced entries of a backend frequency array:
finite and strictly positive. -/
def voicedOf (pitch_values : List PVal) : List ℚ :=
  pitch_values.filterMap
    (fun v => match v with
      | PVal.nan => none
      | PVal.val q => if 0 < q then some q else none)

/-- The pitch backend's output contract (spec section 6): entries are
frequency estimates, with 0 or NaN marking unvoiced frames — never negative. -/
def backendWellFormed : PVal → Prop
  | PVal.nan => True
  | PVal.val q => 0 ≤ q

/-- A concrete numeric environment, for evaluating claims on inputs. -/
def env0 : NumpyEnv :=
  ⟨fun _ => 0, fun n => List.replicate n 1, fun _ _ => 0⟩

/-- Concrete backend: librosa is not importable. -/
def librosaMissing : LibrosaBackend := ⟨false, fun _ => none, none⟩

/-- Concrete backend: librosa present, every frame's LPC fit raising. -/
def librosaAllFail : LibrosaBackend := ⟨true, fun _ => none, none⟩

/-- Concrete backend: librosa present, no frame ever fails, no roots. -/
def librosaOk : LibrosaBackend := ⟨true, fun _ => some [], none⟩

/-- Concrete backend: librosa present, an unexpected exception in the loop. -/
def librosaFault : LibrosaBackend := ⟨true, fun _ => none, some "bad"⟩

/-- Claim C10: for pitch ≤ 0, check_pitch_in_target returns (False, 0.0); for
pitch > 0 with target_min + target_max nonzero, the flag is True exactly when
target_min ≤ pitch ≤ target_max and the second component is the percentage
deviation of pitch from the centre of the range. -/
theorem check_pitch_in_target_spec (pitch target_min target_max : ℚ) :
    (pitch ≤ 0 → check_pitch_in_target pitch target_min target_max = (false, 0)) ∧
    (0 < pitch → target_min + target_max ≠ 0 →
      ((check_pitch_in_target pitch target_min target_max).1 = true ↔
        (target_min ≤ pitch ∧ pitch ≤ target_max)) ∧
      (check_pitch_in_target pitch target_min target_max).2 =
        (pitch - (target_min + target_max) / 2) /
          ((target_min + target_max) / 2) * 100) := by
  constructor
  · intro h
    simp [check_pitch_in_target, h]
  · intro h _
    have hnle : ¬ pitch ≤ 0 := not_le.mpr h
    simp [check_pitch_in_target, hnle]

/-- Witness for C10 at pitch −5 (short-circuit) and pitch 120 in range
[100, 150]. -/
theorem check_pitch_in_target_spec_witness :
    check_pitch_in_target (-5) 100 150 = (false, 0) ∧
    ((check_pitch_in_target 120 100 150).1 = true ↔
      ((100 : ℚ) ≤ 120 ∧ (120 : ℚ) ≤ 150)) ∧
    (check_pitch_in_target 120 100 150).2 =
      ((120 : ℚ) - (100 + 150) / 2) / (((100 : ℚ) + 150) / 2) * 100 :=
  ⟨(check_pitch_in_target_spec (-5) 100 150).1 (by norm_num),
   ((check_pitch_in_target_spec 120 100 150).2 (by norm_num) (by norm_num)).1,
   ((check_pitch_in_target_spec 120 100 150).2 (by norm_num) (by norm_num)).2⟩

/-- Claim C5: the root-to-formant mapper assigns the sorted positive
frequencies positionally — first three for three or more values, the reuse
policy for two values ([500, 1200] giving F1=500, F2=1200, F3=1200) and for
one value, and no contribution for zero values. -/
theorem mapFrame_positional (acc : Lists3) (x y z : ℚ) (rest : List ℚ) :
    mapFrame (x :: y :: z :: rest) acc =
      (acc.1 ++ [x], acc.2.1 ++ [y], acc.2.2 ++ [z]) ∧
    mapFrame [x, y] acc = (acc.1 ++ [x], acc.2.1 ++ [y], acc.2.2 ++ [y]) ∧
    mapFrame [x] acc = (acc.1 ++ [x], acc.2.1 ++ [x], acc.2.2 ++ [x]) ∧
    mapFrame [] acc = acc ∧
    mapFrame [(500 : ℚ), 1200] acc =
      (acc.1 ++ [500], acc.2.1 ++ [1200], acc.2.2 ++ [1200]) := by
  refine ⟨?_, ?_, ?_, ?_, ?_⟩ <;>
    simp [mapFrame, List.getD_cons_zero, List.getD_cons_succ]

/-- Claim C1 (amended): formant_placeholder is False on every return path of
extract_resonance_from_audio, the library-unavailable fallback included. -/
theorem formant_placeholder_always_false (env : NumpyEnv) (L : LibrosaBackend)
    (audio : List ℚ) (sr : ℚ) :
    dlookup (extract_resonance_from_audio env L audio sr)
      ("formant_placeholder") = some (Val.boolean false) := by
  unfold extract_resonance_from_audio
  by_cases hL : L.available = true
  · rw [if_pos hL]
    by_cases hn : n_frames audio.length < 1
    · rw [if_pos hn]; rfl
    · rw [if_neg hn]
      cases hf : L.fault with
      | some e => rfl
      | none =>
        by_cases h1 : 0 < (resLoop env L audio sr 0
            (n_frames audio.length).toNat ([], [], [])).1.length
        · rw [if_pos h1]; rfl
        · rw [if_neg h1]; rfl
  · rw [if_neg hL]; rfl

/-- Counterexample to C1 as stated: with the library unavailable the returned
summary has formant_placeholder False, not True. -/
theorem formant_placeholder_fallback_counterexample :
    dlookup (extract_resonance_from_audio env0 librosaMissing [] 44100)
      ("formant_placeholder") = some (Val.boolean false) ∧
    dlookup (extract_resonance_from_audio env0 librosaMissing [] 44100)
      ("formant_placeholder") ≠ some (Val.boolean true) := by
  exact ⟨rfl, by decide⟩

/-- A buffer shorter than one frame yields a negative-or-zero frame count. -/
theorem n_frames_lt_one_of_short (N : ℕ) (h : N < frame_length) :
    n_frames N < 1 := by
  have hlt : (N : ℤ) < (frame_length : ℤ) := by exact_mod_cast h
  have hneg : ((N : ℤ) - (frame_length : ℤ)) < 0 := by omega
  have hpos : (0 : ℤ) < (hop_length : ℤ) := by norm_num [hop_length]
  have hdiv := Int.fdiv_neg' hneg hpos
  unfold n_frames
  omega

/-- Claim C4: for every buffer shorter than frame_length the resonance
analysis produces zero frames and returns the all-zero summary with
formant_frames_analyzed = 0 and no error entry. -/
theorem short_buffer_empty_resonance (env : NumpyEnv) (L : LibrosaBackend)
    (audio : List ℚ) (sr : ℚ) (h : audio.length < frame_length) :
    extract_resonance_from_audio env L audio sr = _empty_resonance_result ∧
    dget (extract_resonance_from_audio env L audio sr)
      ("formant_frames_analyzed") (Val.num 1) = Val.num 0 ∧
    hasKey (extract_resonance_from_audio env L audio sr) ("error") = false := by
  have hn := n_frames_lt_one_of_short audio.length h
  have hmain : extract_resonance_from_audio env L audio sr =
      _empty_resonance_result := by
    unfold extract_resonance_from_audio
    by_cases hL : L.available = true
    · rw [if_pos hL, if_pos hn]
    · rw [if_neg hL]
  exact ⟨hmain, by rw [hmain]; rfl, by rw [hmain]; rfl⟩

/-- Witness for C4 on the one-sample buffer [0]. -/
theorem short_buffer_empty_resonance_witness :
    (List.length ([0] : List ℚ) < frame_length) ∧
    extract_resonance_from_audio env0 librosaOk [0] 44100 =
      _empty_resonance_result :=
  ⟨by decide,
   (short_buffer_empty_resonance env0 librosaOk [0] 44100 (by decide)).1⟩

/-- Under the backend contract, the zero-replacement of line 31 keeps exactly
the strictly positive entries. -/
theorem validPitches_eq_voiced (xs : List PVal)
    (h : ∀ v ∈ xs, backendWellFormed v) : validPitches xs = voicedOf xs := by
  induction xs with
  | nil => rfl
  | cons v rest ih =>
    have hv := h v (List.mem_cons_self v rest)
    have hrest : ∀ w ∈ rest, backendWellFormed w :=
      fun w hw => h w (List.mem_cons_of_mem v hw)
    cases v with
    | nan => simpa [validPitches, replaceUnvoiced, voicedOf] using ih hrest
    | val q =>
      by_cases hq : q = 0
      · subst hq
        simpa [validPitches, replaceUnvoiced, voicedOf] using ih hrest
      · have hpos : 0 < q := lt_of_le_of_ne hv (Ne.symm hq)
        have hx := ih hrest
        simp only [validPitches, replaceUnvoiced, voicedOf, List.map_cons,
          List.filterMap_cons] at hx ⊢
        simp [hq, hpos, hx]

/-- Claim C3: on a well-formed backend frequency array, the pitch summary
computes its statistics over exactly the strictly positive (voiced) entries,
reports their count against the total count, and the voicing rate is
voiced/total with 0 for an empty array. -/
theorem extract_pitch_voiced_only (env : NumpyEnv) (xs : List PVal)
    (h : ∀ v ∈ xs, backendWellFormed v) :
    extract_pitch_from_audio env (Except.ok xs) =
      [("median_pitch",
        Val.num (if 0 < (voicedOf xs).length then npMedian (voicedOf xs) else 0)),
       ("mean_pitch",
        Val.num (if 0 < (voicedOf xs).length then npMean (voicedOf xs) else 0)),
       ("min_pitch",
        Val.num (if 0 < (voicedOf xs).length then npMin (voicedOf xs) else 0)),
       ("max_pitch",
        Val.num (if 0 < (voicedOf xs).length then npMax (voicedOf xs) else 0)),
       ("std_pitch",
        Val.num (if 0 < (voicedOf xs).length then env.np_std (voicedOf xs) else 0)),
       ("voiced_frames", Val.num ((voicedOf xs).length : ℚ)),
       ("total_frames", Val.num (xs.length : ℚ)),
       ("voicing_rate",
        Val.num (if 0 < xs.length
                 then ((voicedOf xs).length : ℚ) / (xs.length : ℚ) else 0))] := by
  have hv := validPitches_eq_voiced xs h
  have hl : (replaceUnvoiced xs).length = xs.length := by
    simp [replaceUnvoiced]
  simp only [extract_pitch_from_audio, hv, hl]

/-- Witness for C3 on the array [2, NaN, 0]: one voiced entry out of three. -/
theorem extract_pitch_voiced_only_witness :
    dget (extract_pitch_from_audio env0
        (Except.ok [PVal.val 2, PVal.nan, PVal.val 0])) ("median_pitch")
      (Val.num (-1)) = Val.num 2 ∧
    dget (extract_pitch_from_audio env0
        (Except.ok [PVal.val 2, PVal.nan, PVal.val 0])) ("voiced_frames")
      (Val.num (-1)) = Val.num 1 ∧
    dget (extract_pitch_from_audio env0
        (Except.ok [PVal.val 2, PVal.nan, PVal.val 0])) ("total_frames")
      (Val.num (-1)) = Val.num 3 := by
  have H := extract_pitch_voiced_only env0 [PVal.val 2, PVal.nan, PVal.val 0]
    (by norm_num [List.forall_mem_cons, backendWellFormed])
  rw [H]
  exact ⟨by decide, by decide, by decide⟩

/-- Appending to nonempty accumulators factors through the empty one. -/
theorem mapFrame_acc (fs : List ℚ) (acc : Lists3) :
    mapFrame fs acc = append3 acc (mapFrame fs ([], [], [])) := by
  unfold mapFrame append3
  by_cases h3 : 3 ≤ fs.length
  · simp [h3]
  · by_cases h2 : 2 ≤ fs.length
    · simp [h3, h2]
    · by_cases h1 : 1 ≤ fs.length
      · simp [h3, h2, h1]
      · simp [h3, h2, h1]

/-- append3 with the empty triple on the right. -/
theorem append3_nil (x : Lists3) : append3 x ([], [], []) = x := by
  simp [append3]

/-- append3 is associative. -/
theorem append3_assoc (x y z : Lists3) :
    append3 (append3 x y) z = append3 x (append3 y z) := by
  simp [append3, List.append_assoc]

/-- concat3 of a cons. -/
theorem concat3_cons (x : Lists3) (l : List Lists3) :
    concat3 (x :: l) = append3 x (concat3 l) := rfl

/-- The frame loop from any accumulator factors through the empty one. -/
theorem resLoop_acc (env : NumpyEnv) (L : LibrosaBackend) (audio : List ℚ)
    (sr : ℚ) :
    ∀ (fuel i : ℕ) (acc : Lists3),
      resLoop env L audio sr i fuel acc =
        append3 acc (resLoop env L audio sr i fuel ([], [], [])) := by
  intro fuel
  induction fuel with
  | zero => intro i acc; simp [resLoop, append3_nil]
  | succ n ih =>
    intro i acc
    rw [resLoop, resLoop]
    by_cases hb : audio.length < i * hop_length + frame_length
    · rw [if_pos hb, if_pos hb, append3_nil]
    · rw [if_neg hb, if_neg hb]
      cases hf : frameFreqs env L audio sr i with
      | none => exact ih (i + 1) acc
      | some fs =>
        rw [ih (i + 1) (mapFrame fs acc), ih (i + 1) (mapFrame fs ([], [], [])),
          mapFrame_acc, append3_assoc]

/-- The frame loop is the concatenation of independent per-frame
contributions over the processed indices. -/
theorem resLoop_decomp (env : NumpyEnv) (L : LibrosaBackend) (audio : List ℚ)
    (sr : ℚ) :
    ∀ (fuel i : ℕ),
      resLoop env L audio sr i fuel ([], [], []) =
        concat3 ((processedIdxs audio.length i fuel).map
          (frameContrib env L audio sr)) := by
  intro fuel
  induction fuel with
  | zero => intro i; rfl
  | succ n ih =>
    intro i
    rw [resLoop, processedIdxs]
    by_cases hb : audio.length < i * hop_length + frame_length
    · rw [if_pos hb, if_pos hb]; rfl
    · rw [if_neg hb, if_neg hb, List.map_cons, concat3_cons]
      cases hf : frameFreqs env L audio sr i with
      | none =>
        have hc : frameContrib env L audio sr i = ([], [], []) := by
          simp [frameContrib, hf]
        rw [hc]
        have : append3 ([], [], [])
            (concat3 ((processedIdxs audio.length (i + 1) n).map
              (frameContrib env L audio sr))) =
            concat3 ((processedIdxs audio.length (i + 1) n).map
              (frameContrib env L audio sr)) := by
          simp [append3]
        rw [this]
        exact ih (i + 1)
      | some fs =>
        have hc : frameContrib env L audio sr i = mapFrame fs ([], [], []) := by
          simp [frameContrib, hf]
        rw [hc, resLoop_acc env L audio sr n (i + 1) (mapFrame fs ([], [], []))]
        rw [ih (i + 1)]

/-- Claim C8: the resonance frame loop is a concatenation of independent
per-frame contributions over the processed indices (which do not depend on
the backend), and a frame whose LPC estimation raised contributes nothing to
any band — it is skipped, not zero-filled, and the remaining frames are
unaffected. -/
theorem resonance_frame_isolation (env : NumpyEnv) (L : LibrosaBackend)
    (audio : List ℚ) (sr : ℚ) (i fuel : ℕ) :
    resLoop env L audio sr i fuel ([], [], []) =
      concat3 ((processedIdxs audio.length i fuel).map
        (frameContrib env L audio sr)) ∧
    (∀ j : ℕ, L.lpc_roots (windowedFrame env audio j) = none →
      frameContrib env L audio sr j = ([], [], [])) := by
  refine ⟨resLoop_decomp env L audio sr fuel i, ?_⟩
  intro j hj
  simp [frameContrib, frameFreqs, hj]

/-- Witness for C8 with a backend whose LPC fit always raises, on a
one-frame buffer. -/
theorem resonance_frame_isolation_witness :
    frameContrib env0 librosaAllFail (List.replicate 2048 (0 : ℚ)) 44100 0 =
      ([], [], []) ∧
    resLoop env0 librosaAllFail (List.replicate 2048 (0 : ℚ)) 44100 0 1
        ([], [], []) =
      concat3 ((processedIdxs (List.replicate 2048 (0 : ℚ)).length 0 1).map
        (frameContrib env0 librosaAllFail (List.replicate 2048 (0 : ℚ)) 44100)) :=
  ⟨(resonance_frame_isolation env0 librosaAllFail
      (List.replicate 2048 (0 : ℚ)) 44100 0 1).2 0 rfl,
   (resonance_frame_isolation env0 librosaAllFail
      (List.replicate 2048 (0 : ℚ)) 44100 0 1).1⟩

/-- A getD at an in-range index is a member. -/
theorem getD_mem_of_lt (l : List ℚ) (i : ℕ) (h : i < l.length) :
    l.getD i 0 ∈ l := by
  rw [List.getD_eq_getElem?_getD, List.getElem?_eq_getElem h]
  exact List.getElem_mem h

/-- Every frequency produced by lines 131-141 is strictly positive. -/
theorem rootFrequencies_pos (env : NumpyEnv) (roots : List (ℚ × ℚ)) (sr : ℚ) :
    ∀ f ∈ rootFrequencies env roots sr, 0 < f := by
  intro f hf
  unfold rootFrequencies at hf
  rw [List.mem_insertionSort, List.mem_filter] at hf
  exact of_decide_eq_true hf.2

/-- Claim C7: for any root list of an LPC polynomial, the root-to-formant
mapper contributes at most 3 candidates per frame and never a non-positive
frequency. -/
theorem mapper_at_most_three_positive (env : NumpyEnv)
    (roots : List (ℚ × ℚ)) (sr : ℚ) :
    ((mapFrame (rootFrequencies env roots sr) ([], [], [])).1.length +
       (mapFrame (rootFrequencies env roots sr) ([], [], [])).2.1.length +
       (mapFrame (rootFrequencies env roots sr) ([], [], [])).2.2.length ≤ 3) ∧
    (mapFrame (rootFrequencies env roots sr) ([], [], [])).1.all
      (fun f => decide (0 < f)) = true ∧
    (mapFrame (rootFrequencies env roots sr) ([], [], [])).2.1.all
      (fun f => decide (0 < f)) = true ∧
    (mapFrame (rootFrequencies env roots sr) ([], [], [])).2.2.all
      (fun f => decide (0 < f)) = true := by
  have hpos := rootFrequencies_pos env roots sr
  set fs := rootFrequencies env roots sr with hfs
  unfold mapFrame
  by_cases h3 : 3 ≤ fs.length
  · rw [if_pos h3]
    refine ⟨by simp, ?_, ?_, ?_⟩ <;>
      · simp only [List.nil_append, List.all_cons, List.all_nil, Bool.and_true]
        exact decide_eq_true (hpos _ (getD_mem_of_lt fs _ (by omega)))
  · rw [if_neg h3]
    by_cases h2 : 2 ≤ fs.length
    · rw [if_pos h2]
      refine ⟨by simp, ?_, ?_, ?_⟩ <;>
        · simp only [List.nil_append, List.all_cons, List.all_nil, Bool.and_true]
          exact decide_eq_true (hpos _ (getD_mem_of_lt fs _ (by omega)))
    · rw [if_neg h2]
      by_cases h1 : 1 ≤ fs.length
      · rw [if_pos h1]
        refine ⟨by simp, ?_, ?_, ?_⟩ <;>
          · simp only [List.nil_append, List.all_cons, List.all_nil, Bool.and_true]
            exact decide_eq_true (hpos _ (getD_mem_of_lt fs _ (by omega)))
      · rw [if_neg h1]
        exact ⟨by simp, rfl, rfl, rfl⟩

/-- Claim C6: per band, the summary's mean is over exactly the values inside
the band's plausible range (0.0 when none pass), and the standard deviation
is taken only when at least two filtered values exist, else 0.0. -/
theorem summarize_filter_bands (env : NumpyEnv)
    (f1_values f2_values f3_values : List ℚ) :
    (∀ x ∈ f1_values.filter (fun x => decide (200 ≤ x ∧ x ≤ 1200)),
       200 ≤ x ∧ x ≤ 1200) ∧
    (∀ x ∈ f2_values.filter (fun x => decide (700 ≤ x ∧ x ≤ 2800)),
       700 ≤ x ∧ x ≤ 2800) ∧
    (∀ x ∈ f3_values.filter (fun x => decide (1500 ≤ x ∧ x ≤ 3800)),
       1500 ≤ x ∧ x ≤ 3800) ∧
    dget (summarize env f1_values f2_values f3_values) ("f1_mean")
        (Val.num (-1)) =
      Val.num (if (f1_values.filter (fun x => decide (200 ≤ x ∧ x ≤ 1200))).length = 0
               then 0
               else npMean (f1_values.filter (fun x => decide (200 ≤ x ∧ x ≤ 1200)))) ∧
    dget (summarize env f1_values f2_values f3_values) ("f2_mean")
        (Val.num (-1)) =
      Val.num (if (f2_values.filter (fun x => decide (700 ≤ x ∧ x ≤ 2800))).length = 0
               then 0
               else npMean (f2_values.filter (fun x => decide (700 ≤ x ∧ x ≤ 2800)))) ∧
    dget (summarize env f1_values f2_values f3_values) ("f3_mean")
        (Val.num (-1)) =
      Val.num (if (f3_values.filter (fun x => decide (1500 ≤ x ∧ x ≤ 3800))).length = 0
               then 0
               else npMean (f3_values.filter (fun x => decide (1500 ≤ x ∧ x ≤ 3800)))) ∧
    dget (summarize env f1_values f2_values f3_values) ("f1_std")
        (Val.num (-1)) =
      Val.num (if 2 ≤ (f1_values.filter (fun x => decide (200 ≤ x ∧ x ≤ 1200))).length
               then env.np_std (f1_values.filter (fun x => decide (200 ≤ x ∧ x ≤ 1200)))
               else 0) ∧
    dget (summarize env f1_values f2_values f3_values) ("f2_std")
        (Val.num (-1)) =
      Val.num (if 2 ≤ (f2_values.filter (fun x => decide (700 ≤ x ∧ x ≤ 2800))).length
               then env.np_std (f2_values.filter (fun x => decide (700 ≤ x ∧ x ≤ 2800)))
               else 0) ∧
    dget (summarize env f1_values f2_values f3_values) ("f3_std")
        (Val.num (-1)) =
      Val.num (if 2 ≤ (f3_values.filter (fun x => decide (1500 ≤ x ∧ x ≤ 3800))).length
               then env.np_std (f3_values.filter (fun x => decide (1500 ≤ x ∧ x ≤ 3800)))
               else 0) := by
  refine ⟨?_, ?_, ?_, ?_, ?_, ?_, rfl, rfl, rfl⟩
  · intro x hx; rw [List.mem_filter] at hx; exact of_decide_eq_true hx.2
  · intro x hx; rw [List.mem_filter] at hx; exact of_decide_eq_true hx.2
  · intro x hx; rw [List.mem_filter] at hx; exact of_decide_eq_true hx.2
  · have e : dget (summarize env f1_values f2_values f3_values) ("f1_mean")
        (Val.num (-1)) =
        Val.num (if 0 < (f1_values.filter (fun x => decide (200 ≤ x ∧ x ≤ 1200))).length
                 then npMean (f1_values.filter (fun x => decide (200 ≤ x ∧ x ≤ 1200)))
                 else 0) := rfl
    rw [e]
    by_cases h : (f1_values.filter (fun x => decide (200 ≤ x ∧ x ≤ 1200))).length = 0
    · rw [if_neg (by omega), if_pos h]
    · rw [if_pos (Nat.pos_of_ne_zero h), if_neg h]
  · have e : dget (summarize env f1_values f2_values f3_values) ("f2_mean")
        (Val.num (-1)) =
        Val.num (if 0 < (f2_values.filter (fun x => decide (700 ≤ x ∧ x ≤ 2800))).length
                 then npMean (f2_values.filter (fun x => decide (700 ≤ x ∧ x ≤ 2800)))
                 else 0) := rfl
    rw [e]
    by_cases h : (f2_values.filter (fun x => decide (700 ≤ x ∧ x ≤ 2800))).length = 0
    · rw [if_neg (by omega), if_pos h]
    · rw [if_pos (Nat.pos_of_ne_zero h), if_neg h]
  · have e : dget (summarize env f1_values f2_values f3_values) ("f3_mean")
        (Val.num (-1)) =
        Val.num (if 0 < (f3_values.filter (fun x => decide (1500 ≤ x ∧ x ≤ 3800))).length
                 then npMean (f3_values.filter (fun x => decide (1500 ≤ x ∧ x ≤ 3800)))
                 else 0) := rfl
    rw [e]
    by_cases h : (f3_values.filter (fun x => decide (1500 ≤ x ∧ x ≤ 3800))).length = 0
    · rw [if_neg (by omega), if_pos h]
    · rw [if_pos (Nat.pos_of_ne_zero h), if_neg h]

/-- Witness for C6 on the candidate lists [500], [], []. -/
theorem summarize_filter_bands_witness :
    ((200 : ℚ) ≤ 500 ∧ (500 : ℚ) ≤ 1200) ∧
    dget (summarize env0 [500] [] []) ("f1_std") (Val.num (-1)) = Val.num 0 := by
  have H := summarize_filter_bands env0 [500] [] []
  refine ⟨H.1 500 (by decide), ?_⟩
  rw [H.2.2.2.2.2.2.1]
  decide

/-- dlookup over an append when the key is absent on the left. -/
theorem dlookup_append_of_none (d₁ d₂ : Dict) (k : String)
    (h : dlookup d₁ k = none) : dlookup (d₁ ++ d₂) k = dlookup d₂ k := by
  unfold dlookup at h ⊢
  have hf : List.find? (fun p => p.1 == k) d₁ = none := by
    cases hf : List.find? (fun p => p.1 == k) d₁
    · rfl
    · rw [hf] at h; simp at h
  rw [List.find?_append, hf]
  rfl

/-- dlookup over an append when the key is bound on the left. -/
theorem dlookup_append_of_some (d₁ d₂ : Dict) (k : String) (v : Val)
    (h : dlookup d₁ k = some v) : dlookup (d₁ ++ d₂) k = some v := by
  unfold dlookup at h ⊢
  cases hf : List.find? (fun p => p.1 == k) d₁ with
  | none => rw [hf] at h; simp at h
  | some p =>
    rw [List.find?_append, hf]
    rw [hf] at h
    simpa using h

/-- hasKey distributes over append. -/
theorem hasKey_append (d₁ d₂ : Dict) (k : String) :
    hasKey (d₁ ++ d₂) k = (hasKey d₁ k || hasKey d₂ k) := by
  unfold hasKey dlookup
  rw [List.find?_append]
  cases List.find? (fun p => p.1 == k) d₁ <;> simp

/-- The conditional error entry binds no other key. -/
theorem hasKey_errorExtra_ne (k k' : String) (d : Dict)
    (h : (k == k') = false) : hasKey (errorExtra k d) k' = false := by
  unfold errorExtra
  cases dlookup d ("error") with
  | none => rfl
  | some v => simp [hasKey, dlookup, h]

/-- The conditional error entry binds its key to the sub-result's error. -/
theorem dlookup_errorExtra_self (k : String) (d : Dict) :
    dlookup (errorExtra k d) k = dlookup d ("error") := by
  unfold errorExtra
  cases h : dlookup d ("error") with
  | none => rfl
  | some v => simp [dlookup]

/-- The conditional error entry yields nothing for another key. -/
theorem dlookup_errorExtra_ne (k k' : String) (d : Dict)
    (h : (k == k') = false) : dlookup (errorExtra k d) k' = none := by
  unfold errorExtra
  cases dlookup d ("error") with
  | none => rfl
  | some v => simp [dlookup, h]

/-- Claim C2 (amended): the merged record of extract_full_analysis contains
the eight pitch fields, the six formant mean/std fields,
formant_placeholder, sample_rate and duration_seconds — but not the
resonance frame counts formant_frames_analyzed / formant_valid_frames,
which stay only in the resonance sub-result. -/
theorem full_analysis_fields (env : NumpyEnv)
    (pB : Except String (List PVal)) (L : LibrosaBackend)
    (audio : List ℚ) (sr : ℚ) :
    hasKey (extract_full_analysis env pB L audio sr) ("median_pitch") = true ∧
    hasKey (extract_full_analysis env pB L audio sr) ("mean_pitch") = true ∧
    hasKey (extract_full_analysis env pB L audio sr) ("min_pitch") = true ∧
    hasKey (extract_full_analysis env pB L audio sr) ("max_pitch") = true ∧
    hasKey (extract_full_analysis env pB L audio sr) ("std_pitch") = true ∧
    hasKey (extract_full_analysis env pB L audio sr) ("voiced_frames") = true ∧
    hasKey (extract_full_analysis env pB L audio sr) ("total_frames") = true ∧
    hasKey (extract_full_analysis env pB L audio sr) ("voicing_rate") = true ∧
    hasKey (extract_full_analysis env pB L audio sr) ("f1_mean") = true ∧
    hasKey (extract_full_analysis env pB L audio sr) ("f2_mean") = true ∧
    hasKey (extract_full_analysis env pB L audio sr) ("f3_mean") = true ∧
    hasKey (extract_full_analysis env pB L audio sr) ("f1_std") = true ∧
    hasKey (extract_full_analysis env pB L audio sr) ("f2_std") = true ∧
    hasKey (extract_full_analysis env pB L audio sr) ("f3_std") = true ∧
    hasKey (extract_full_analysis env pB L audio sr) ("formant_placeholder") = true ∧
    hasKey (extract_full_analysis env pB L audio sr) ("sample_rate") = true ∧
    hasKey (extract_full_analysis env pB L audio sr) ("duration_seconds") = true ∧
    hasKey (extract_full_analysis env pB L audio sr) ("formant_frames_analyzed") = false ∧
    hasKey (extract_full_analysis env pB L audio sr) ("formant_valid_frames") = false := by
  refine ⟨rfl, rfl, rfl, rfl, rfl, rfl, rfl, rfl, rfl, rfl, rfl, rfl, rfl, rfl,
    rfl, rfl, rfl, ?_, ?_⟩
  · unfold extract_full_analysis
    rw [hasKey_append, hasKey_append,
      hasKey_errorExtra_ne _ _ _ (by decide), hasKey_errorExtra_ne _ _ _ (by decide)]
    rfl
  · unfold extract_full_analysis
    rw [hasKey_append, hasKey_append,
      hasKey_errorExtra_ne _ _ _ (by decide), hasKey_errorExtra_ne _ _ _ (by decide)]
    rfl

/-- Counterexample to C2 as stated: on the empty buffer the merged record
lacks both resonance frame counts, although the resonance sub-result itself
reports formant_frames_analyzed. -/
theorem full_analysis_missing_counts_counterexample :
    hasKey (extract_full_analysis env0 (Except.ok []) librosaOk [] 44100)
      ("formant_frames_analyzed") = false ∧
    hasKey (extract_full_analysis env0 (Except.ok []) librosaOk [] 44100)
      ("formant_valid_frames") = false ∧
    hasKey (extract_resonance_from_audio env0 librosaOk [] 44100)
      ("formant_frames_analyzed") = true :=
  ⟨rfl, rfl, rfl⟩

/-- Claim C9: extract_full_analysis is total — a sub-analysis exception is
captured as a pitch_error / resonance_error entry propagated from the
sub-result's error field over zeroed dicts, and duration_seconds is
len/sample_rate, 0.0 for an empty buffer. -/
theorem full_analysis_never_raises (env : NumpyEnv)
    (pB : Except String (List PVal)) (L : LibrosaBackend)
    (audio : List ℚ) (sr : ℚ) :
    dget (extract_full_analysis env pB L audio sr) ("duration_seconds")
        (Val.num (-1)) =
      Val.num (if 0 < audio.length then (audio.length : ℚ) / sr else 0) ∧
    dlookup (extract_full_analysis env pB L audio sr) ("pitch_error") =
      dlookup (extract_pitch_from_audio env pB) ("error") ∧
    dlookup (extract_full_analysis env pB L audio sr) ("resonance_error") =
      dlookup (extract_resonance_from_audio env L audio sr) ("error") ∧
    (∀ e, pB = Except.error e →
      extract_pitch_from_audio env pB = pitchErrorDict e) ∧
    (∀ e, L.available = true → L.fault = some e →
      1 ≤ n_frames audio.length →
      extract_resonance_from_audio env L audio sr = resonanceErrorDict e) := by
  refine ⟨rfl, ?_, ?_, ?_, ?_⟩
  · unfold extract_full_analysis
    rw [List.append_assoc,
      dlookup_append_of_none (fullBase env pB L audio sr) _ ("pitch_error") rfl]
    cases hp : dlookup (extract_pitch_from_audio env pB) ("error") with
    | none =>
      rw [dlookup_append_of_none _ _ _ (by rw [dlookup_errorExtra_self, hp])]
      rw [dlookup_errorExtra_ne _ _ _ (by decide)]
    | some v =>
      rw [dlookup_append_of_some _ _ _ v (by rw [dlookup_errorExtra_self, hp])]
  · unfold extract_full_analysis
    rw [List.append_assoc,
      dlookup_append_of_none (fullBase env pB L audio sr) _ ("resonance_error") rfl]
    rw [dlookup_append_of_none _ _ _ (dlookup_errorExtra_ne _ _ _ (by decide))]
    exact dlookup_errorExtra_self _ _
  · intro e he
    rw [he]
    rfl
  · intro e hA hf h1
    unfold extract_resonance_from_audio
    rw [if_pos hA, if_neg (by omega), hf]

/-- Witness for C9: a raising pitch backend, a faulting resonance loop, and a
one-frame buffer at sample rate 1. -/
theorem full_analysis_never_raises_witness :
    extract_pitch_from_audio env0 (Except.error "boom") = pitchErrorDict "boom" ∧
    extract_resonance_from_audio env0 librosaFault
        (List.replicate 2048 (0 : ℚ)) 1 = resonanceErrorDict "bad" ∧
    dget (extract_full_analysis env0 (Except.error "boom") librosaFault
        (List.replicate 2048 (0 : ℚ)) 1) ("duration_seconds") (Val.num (-1)) =
      Val.num 2048 := by
  have H := full_analysis_never_raises env0 (Except.error "boom") librosaFault
    (List.replicate 2048 (0 : ℚ)) 1
  refine ⟨H.2.2.2.1 "boom" rfl, H.2.2.2.2 "bad" rfl rfl ?_, ?_⟩
  · simp only [List.length_replicate]
    decide
  · rw [H.1]
    norm_num

end Fern
